import Mathlib

/-!
Shallow embedding of the Cameroon internship ("stage") management system:
the stage protocols module (data model, validation protocol, scoring),
the stage manager (SQLite-backed store) and the socket server's message
router.  Dates and timestamps are modelled at day granularity as integers
(`datetime` differences in the source are taken with `.days`); Python
float arithmetic is modelled by exact rational arithmetic over `ℚ`;
Python dictionaries are modelled as association lists with
insert-or-replace semantics; SQLite tables are modelled as lists of rows.
-/

namespace StageMgmt

/-- Statuses of a stage, from enum StageStatus in stage-protocols.py. -/
inductive StageStatus
  | pending      -- "EN_ATTENTE"
  | approved     -- "APPROUVE"
  | inProgress   -- "EN_COURS"
  | completed    -- "TERMINE"
  | cancelled    -- "ANNULE"
  | suspended    -- "SUSPENDU"
deriving DecidableEq, Repr

/-- String value stored for each status (the enum values). -/
def StageStatus.value : StageStatus → String
  | .pending => "EN_ATTENTE"
  | .approved => "APPROUVE"
  | .inProgress => "EN_COURS"
  | .completed => "TERMINE"
  | .cancelled => "ANNULE"
  | .suspended => "SUSPENDU"

/-- Report types, from enum ReportType in stage-protocols.py. -/
inductive ReportType
  | weekly | monthly | midterm | final | activity
deriving DecidableEq, Repr

/-- Institution types, from enum InstitutionType in stage-server.py. -/
inductive InstitutionType
  | university | company | ministry | coordinator
deriving DecidableEq, Repr

/-- Conversion of an enum value string to an InstitutionType; in Python
`InstitutionType(s)` raises ValueError when `s` is not an enum value,
modelled here by `none`. -/
def InstitutionType.ofValue : String → Option InstitutionType
  | "UNIVERSITE" => some .university
  | "ENTREPRISE" => some .company
  | "MINISTERE" => some .ministry
  | "COORDINATEUR" => some .coordinator
  | _ => none

/-- Connection statuses, from enum ConnectionStatus in stage-server.py. -/
inductive ConnectionStatus
  | connected | disconnected | pendingConn
deriving DecidableEq, Repr

/-! ## Evaluation scoring

From StageEvaluation.final_score / StageEvaluation.grade in
stage-protocols.py and the identical inline computation in
StageManager.evaluate_stage (enhanced-stage-service.py).  The Python
float weights 0.30 / 0.20 / 0.15 / 0.15 / 0.20 are the exact rationals
30/100, 20/100, 15/100, 15/100, 20/100. -/

/-- Weighted final score of an evaluation, from the `final_score`
property of StageEvaluation. -/
def final_score (technical soft attendance initiative report_quality : ℚ) : ℚ :=
  technical * (30/100) + soft * (20/100) + attendance * (15/100) +
  initiative * (15/100) + report_quality * (20/100)

/-- Letter grade derived from a final score, from the `grade` property of
StageEvaluation and the inline if-chain in evaluate_stage. -/
def gradeOfScore (score : ℚ) : String :=
  if score ≥ 16 then "A - Excellent"
  else if score ≥ 14 then "B - Très Bien"
  else if score ≥ 12 then "C - Bien"
  else if score ≥ 10 then "D - Passable"
  else "E - Insuffisant"

/-! ## Progress computations -/

/-- Derived progress of the Stage dataclass, from the
`progress_percentage` property in stage-protocols.py.  `start_date`,
`end_date` and `today` are day numbers; the guard `today < start_date`
returns 0, `today > end_date` returns 100, otherwise the elapsed-day
fraction times 100, capped at 100. -/
def progress_percentage (status : StageStatus) (start_date end_date today : Int) : ℚ :=
  if status = StageStatus.completed then 100
  else if status = StageStatus.pending ∨ status = StageStatus.cancelled then 0
  else if today < start_date then 0
  else if today > end_date then 100
  else
    let total_days : ℚ := ((end_date - start_date : Int) : ℚ)
    let elapsed_days : ℚ := ((today - start_date : Int) : ℚ)
    min 100 (elapsed_days / total_days * 100)

/-- Progress recomputed by StageManager._update_stage_progress in
enhanced-stage-service.py: 40 percent of the elapsed-time progress plus
a report factor `min(report_count*10, 30)` plus an evaluation factor
`min(eval_count*15, 30)`, capped at 100.  The Python float literal 0.4
is the rational 4/10.  The stage status is never consulted. -/
def update_stage_progress (start_date end_date today : Int)
    (report_count eval_count : Nat) : ℚ :=
  let time_progress : ℚ :=
    if today < start_date then 0
    else if today > end_date then 100
    else ((today - start_date : Int) : ℚ) / ((end_date - start_date : Int) : ℚ) * 100
  let report_factor : ℚ := ((min (report_count * 10) 30 : Nat) : ℚ)
  let eval_factor : ℚ := ((min (eval_count * 15) 30 : Nat) : ℚ)
  min 100 (time_progress * (4/10) + report_factor + eval_factor)

/-! ## Validation protocol

From class StageValidationProtocol in stage-protocols.py.  Error and
warning messages are represented by constructors rather than French
message strings; `ok` is `errors == []` as in the source
(`len(errors) == 0`). -/

/-- Errors of validate_stage_creation.  `minDuration` stands for the
message about the 4-week minimum, `maxDuration` for the 26-week maximum,
`missingField f` for the missing-required-field message naming `f`. -/
inductive CreationError
  | minDuration
  | maxDuration
  | missingField (name : String)
deriving DecidableEq, Repr

/-- Warnings of validate_stage_creation; `startInPast` stands for the
start-date-in-the-past message. -/
inductive CreationWarning
  | startInPast
deriving DecidableEq, Repr

def MINIMUM_DURATION_WEEKS : Int := 4
def MAXIMUM_DURATION_WEEKS : Int := 26

/-- Creation payload fields read by validate_stage_creation.  The two
dates are optional (absent key or None); required fields are strings
where the Python falsy test `not stage_data.get(field)` is modelled as
equality with the empty string. -/
structure CreationData where
  start_date : Option Int
  end_date : Option Int
  student_id : String
  company_id : String
  university_id : String
  title : String
  stage_type : String
deriving DecidableEq, Repr

/-- Validation of stage-creation data, from
StageValidationProtocol.validate_stage_creation.  `now` is the current
day (`datetime.now()`).  Returns (ok, errors, warnings).  Duration
checks run only when both dates are present; `duration_weeks` is floor
division of the day difference by 7 (Python `//`). -/
def validate_stage_creation (d : CreationData) (now : Int) :
    Bool × List CreationError × List CreationWarning :=
  let dateParts : List CreationError × List CreationWarning :=
    match d.start_date, d.end_date with
    | some sd, some ed =>
      let duration_weeks := (ed - sd).fdiv 7
      let e1 := if duration_weeks < MINIMUM_DURATION_WEEKS then [CreationError.minDuration] else []
      let e2 := if duration_weeks > MAXIMUM_DURATION_WEEKS then [CreationError.maxDuration] else []
      let w := if sd < now then [CreationWarning.startInPast] else []
      (e1 ++ e2, w)
    | _, _ => ([], [])
  let requiredErrors :=
    [("student_id", d.student_id), ("company_id", d.company_id),
     ("university_id", d.university_id), ("title", d.title),
     ("stage_type", d.stage_type)].filterMap
      (fun p => if p.2 = "" then some (CreationError.missingField p.1) else none)
  let errors := dateParts.1 ++ requiredErrors
  (errors.isEmpty, errors, dateParts.2)

/-- Errors of validate_report_submission: `stageNotInProgress` stands
for the stage-must-be-in-progress message, `finalTooEarly` for the
final-report-needs-80-percent message. -/
inductive SubmissionError
  | stageNotInProgress
  | finalTooEarly
deriving DecidableEq, Repr

/-- Validation of a report submission, from
StageValidationProtocol.validate_report_submission.  It consults the
Stage dataclass fields `status` and the derived `progress_percentage`
(hence the three day parameters). -/
def validate_report_submission (status : StageStatus)
    (start_date end_date today : Int) (report_type : ReportType) :
    Bool × List SubmissionError :=
  let e1 := if status ≠ StageStatus.inProgress ∧ status ≠ StageStatus.approved
    then [SubmissionError.stageNotInProgress] else []
  let e2 := if report_type = ReportType.final ∧
      progress_percentage status start_date end_date today < 80
    then [SubmissionError.finalTooEarly] else []
  let errors := e1 ++ e2
  (errors.isEmpty, errors)

/-! ## Stage store (StageManager, enhanced-stage-service.py)

SQLite tables are modelled as lists of rows; uuid4-generated identifiers
are passed in as parameters (freshness is a hypothesis where needed, as
a uuid collision would make the INSERT hit the primary key and the
`except` branch return a failure).  Timestamps (CURRENT_TIMESTAMP /
datetime.now) are passed as the `now` / `today` parameters. -/

/-- Row of the `stages` table (columns of the CREATE TABLE statement).
Stored dates are day numbers; the status column holds the enum value
strings. -/
structure StageRow where
  stage_id : String
  student_id : String
  student_name : String
  student_email : String
  student_phone : String
  university_id : String
  university_name : String
  department : String
  academic_level : String
  company_id : String
  company_name : String
  company_address : String
  company_city : String
  company_region : String
  stage_title : String
  stage_description : String
  stage_type : String
  start_date : Int
  end_date : Int
  status : String
  academic_supervisor_id : Option String
  company_supervisor_id : Option String
  progress_percentage : ℚ
  created_at : Int
  updated_at : Int
deriving DecidableEq, Repr

/-- Row of the `reports` table.  Attached file bytes are not modelled;
`file_path` records whether a file was stored. -/
structure ReportRow where
  report_id : String
  stage_id : String
  report_type : String
  title : String
  content : String
  file_path : Option String
  submitted_by : String
  submission_date : Int
  week_number : Int
  status : String
  reviewed_by : Option String
  review_date : Option Int
  feedback : Option String
  score : Option ℚ
deriving DecidableEq, Repr

/-- Row of the `evaluations` table. -/
structure EvaluationRow where
  evaluation_id : String
  stage_id : String
  evaluator_id : String
  evaluator_type : String
  technical_skills_score : ℚ
  soft_skills_score : ℚ
  attendance_score : ℚ
  initiative_score : ℚ
  report_quality_score : ℚ
  final_score : ℚ
  grade : String
  comments : String
  recommendation : String
  evaluation_date : Int
deriving DecidableEq, Repr

/-- Row of the `supervisors` table. -/
structure SupervisorRow where
  supervisor_id : String
  first_name : String
  last_name : String
  email : String
  phone : String
  supervisor_type : String
  institution_id : String
  department : String
  title : String
  max_students : Int
  current_students : Int
deriving DecidableEq, Repr

/-- Row of the `stage_history` table. -/
structure HistoryRow where
  history_id : String
  stage_id : String
  action : String
  field_changed : Option String
  old_value : Option String
  new_value : Option String
  changed_by : String
  changed_at : Int
deriving DecidableEq, Repr

/-- The SQLite database of one StageManager. -/
structure DB where
  stages : List StageRow
  reports : List ReportRow
  evaluations : List EvaluationRow
  supervisors : List SupervisorRow
  history : List HistoryRow
deriving DecidableEq, Repr

/-- The empty database produced by _init_database. -/
def DB.empty : DB := ⟨[], [], [], [], []⟩

/-- StageManager._log_history: append one row to stage_history. -/
def log_history (db : DB) (history_id stage_id action : String)
    (field_changed old_value new_value : Option String)
    (changed_by : String) (now : Int) : DB :=
  { db with history := db.history ++
      [⟨history_id, stage_id, action, field_changed, old_value, new_value, changed_by, now⟩] }

/-- Payload of create_stage (the keys read from `stage_data`; keys read
with `.get(k, '')` default to the empty string, the rest raise KeyError
when absent, a case modelled at the message level by an absent
payload). -/
structure CreateStageData where
  student_id : String
  student_name : String
  student_email : String
  student_phone : String
  university_id : String
  university_name : String
  department : String
  academic_level : String
  company_id : String
  company_name : String
  company_address : String
  company_city : String
  company_region : String
  stage_title : String
  stage_description : String
  stage_type : String
  start_date : Int
  end_date : Int
  created_by : String
deriving DecidableEq, Repr

/-- Response of create_stage: `{'success', 'stage_id'?, 'message'}`. -/
structure CreateResponse where
  success : Bool
  stage_id : Option String
  message : String
deriving DecidableEq, Repr

/-- StageManager.create_stage: INSERT a new stage row with status
EN_ATTENTE and the column defaults, log a CREATE history row, return
success.  A primary-key collision on `stage_id` (uuid4 duplicate) makes
the INSERT raise, which the `except` branch turns into a failure
response with the database unchanged (the transaction is never
committed). -/
def create_stage (db : DB) (stage_id history_id : String)
    (d : CreateStageData) (now : Int) : DB × CreateResponse :=
  if db.stages.any (fun r => r.stage_id = stage_id) then
    (db, ⟨false, none, "Erreur"⟩)
  else
    let row : StageRow :=
      ⟨stage_id, d.student_id, d.student_name, d.student_email, d.student_phone,
       d.university_id, d.university_name, d.department, d.academic_level,
       d.company_id, d.company_name, d.company_address, d.company_city, d.company_region,
       d.stage_title, d.stage_description, d.stage_type, d.start_date, d.end_date,
       "EN_ATTENTE", none, none, 0, now, now⟩
    let db := { db with stages := db.stages ++ [row] }
    let db := log_history db history_id stage_id "CREATE" none none
      (some "stage_data") d.created_by now
    (db, ⟨true, some stage_id, "Stage créé avec succès"⟩)

/-- Result of get_stage: the stage row together with its reports and
evaluations (the source orders reports by submission date descending;
the order is not relevant to any claim and list order is kept). -/
structure StageDetail where
  row : StageRow
  reports : List ReportRow
  evaluations : List EvaluationRow
deriving DecidableEq, Repr

/-- StageManager.get_stage: SELECT the stage row by id plus its nested
reports and evaluations, or None. -/
def get_stage (db : DB) (stage_id : String) : Option StageDetail :=
  match db.stages.find? (fun r => r.stage_id = stage_id) with
  | some row =>
    some ⟨row, db.reports.filter (fun r => r.stage_id = stage_id),
          db.evaluations.filter (fun e => e.stage_id = stage_id)⟩
  | none => none

/-- Filters of list_stages (keys read from the `filters` dict with
Python truthiness: an absent key or empty string applies no filter).
The academic_year filter (a strftime on the stored date string) is not
representable at day granularity and is not modelled; no claim uses
it. -/
structure ListFilters where
  status : Option String
  region : Option String
  university_id : Option String
  company_id : Option String
  student_id : Option String
  supervisor_id : Option String
deriving DecidableEq, Repr

/-- The no-filter value (an empty filters dict). -/
def ListFilters.noFilters : ListFilters := ⟨none, none, none, none, none, none⟩

/-- One optional equality filter: absent or empty-string values are
falsy in Python and add no WHERE clause. -/
def applyFilter (o : Option String) (p : String → Bool) : Bool :=
  match o with
  | some s => if s = "" then true else p s
  | none => true

/-- WHERE clause of list_stages applied to one row. -/
def stage_matches (f : ListFilters) (r : StageRow) : Bool :=
  applyFilter f.status (fun v => r.status = v) &&
  applyFilter f.region (fun v => r.company_region = v) &&
  applyFilter f.university_id (fun v => r.university_id = v) &&
  applyFilter f.company_id (fun v => r.company_id = v) &&
  applyFilter f.student_id (fun v => r.student_id = v) &&
  applyFilter f.supervisor_id
    (fun v => r.academic_supervisor_id = some v || r.company_supervisor_id = some v)

/-- Response of list_stages. -/
structure ListResponse where
  stages : List StageRow
  total_count : Nat
  page : Int
  page_size : Int
  total_pages : Int
deriving DecidableEq, Repr

/-- StageManager.list_stages: filter, count, paginate.  `total_pages`
is `(total_count + page_size - 1) // page_size` with Python floor
division; `page_size = 0` raises ZeroDivisionError (list_stages has no
try/except, so the exception escapes), modelled as `Except.error`.  A
negative LIMIT means no limit and a negative OFFSET no offset in
SQLite.  The ORDER BY created_at DESC sort is not relevant to any claim
and list order is kept. -/
def list_stages (db : DB) (f : ListFilters) (page page_size : Int) :
    Except String ListResponse :=
  if page_size = 0 then Except.error "ZeroDivisionError"
  else
    let matching := db.stages.filter (stage_matches f)
    let total_count := matching.length
    let offset := ((page - 1) * page_size).toNat
    let items := if page_size < 0 then matching.drop offset
      else (matching.drop offset).take page_size.toNat
    Except.ok ⟨items, total_count, page, page_size,
      ((total_count : Int) + page_size - 1).fdiv page_size⟩

/-- Generic success/failure response `{'success', 'message'}`. -/
structure OpResponse where
  success : Bool
  message : String
deriving DecidableEq, Repr

/-- Setter for an updatable column of the stages table, used to model
`UPDATE stages SET {field_name} = ?`.  The TEXT columns that a client
can meaningfully target are dispatched by name; any other name stands
for a column the day-granularity model does not carry (or an unknown
column, which makes sqlite raise and update_stage answer failure) and
yields `none`. -/
def stage_field_setter (field_name : String) : Option (StageRow → String → StageRow) :=
  if field_name = "status" then some (fun r v => { r with status := v })
  else if field_name = "stage_title" then some (fun r v => { r with stage_title := v })
  else if field_name = "stage_description" then some (fun r v => { r with stage_description := v })
  else if field_name = "stage_type" then some (fun r v => { r with stage_type := v })
  else if field_name = "student_name" then some (fun r v => { r with student_name := v })
  else if field_name = "department" then some (fun r v => { r with department := v })
  else if field_name = "academic_level" then some (fun r v => { r with academic_level := v })
  else if field_name = "company_name" then some (fun r v => { r with company_name := v })
  else if field_name = "company_address" then some (fun r v => { r with company_address := v })
  else if field_name = "company_city" then some (fun r v => { r with company_city := v })
  else if field_name = "company_region" then some (fun r v => { r with company_region := v })
  else none

/-- Getter matching `stage_field_setter`, used for the old value logged
to history (`SELECT {field_name} FROM stages`). -/
def stage_field_getter (field_name : String) (r : StageRow) : Option String :=
  if field_name = "status" then some r.status
  else if field_name = "stage_title" then some r.stage_title
  else if field_name = "stage_description" then some r.stage_description
  else if field_name = "stage_type" then some r.stage_type
  else if field_name = "student_name" then some r.student_name
  else if field_name = "department" then some r.department
  else if field_name = "academic_level" then some r.academic_level
  else if field_name = "company_name" then some r.company_name
  else if field_name = "company_address" then some r.company_address
  else if field_name = "company_city" then some r.company_city
  else if field_name = "company_region" then some r.company_region
  else none

/-- StageManager.update_stage: SELECT the old value (unknown stage →
failure), UPDATE the named column and `updated_at` on every row with
that stage id, log an UPDATE history row, return success.  An unknown
or unmodelled column makes sqlite raise; the `except` branch returns
failure with the database unchanged. -/
def update_stage (db : DB) (history_id stage_id field_name new_value updated_by : String)
    (now : Int) : DB × OpResponse :=
  match db.stages.find? (fun r => r.stage_id = stage_id) with
  | none => (db, ⟨false, "Stage non trouvé"⟩)
  | some row =>
    match stage_field_setter field_name with
    | none => (db, ⟨false, "Erreur"⟩)
    | some setter =>
      let stages := db.stages.map (fun r =>
        if r.stage_id = stage_id then { setter r new_value with updated_at := now } else r)
      let db := { db with stages := stages }
      let db := log_history db history_id stage_id "UPDATE" (some field_name)
        (stage_field_getter field_name row) (some new_value) updated_by now
      (db, ⟨true, "Stage mis à jour avec succès"⟩)

/-- Payload of submit_report (keys read from `report_data`; the report
file bytes, when present, are written to disk and only the path is
stored — the model records `has_file`). -/
structure ReportData where
  stage_id : String
  report_type : String
  title : String
  content : String
  submitted_by : String
  week_number : Int
  has_file : Bool
deriving DecidableEq, Repr

/-- Response of submit_report. -/
structure ReportResponse where
  success : Bool
  report_id : Option String
  message : String
deriving DecidableEq, Repr

/-- StageManager.submit_report: INSERT the report row with status
SOUMIS, then recompute the stage progress (_update_stage_progress: the
report count subquery runs after the INSERT and therefore counts the
new report; when no stage row matches, fetchone gives None and no
update happens — the report is still inserted, as sqlite does not
enforce the foreign key).  No validation protocol is invoked.  A
primary-key collision on `report_id` is turned into a failure by the
`except` branch. -/
def submit_report (db : DB) (report_id : String) (d : ReportData) (now today : Int) :
    DB × ReportResponse :=
  if db.reports.any (fun r => r.report_id = report_id) then
    (db, ⟨false, none, "Erreur"⟩)
  else
    let newRow : ReportRow :=
      ⟨report_id, d.stage_id, d.report_type, d.title, d.content,
       if d.has_file then some (report_id ++ "_file") else none,
       d.submitted_by, now, d.week_number, "SOUMIS", none, none, none, none⟩
    let reports := db.reports ++ [newRow]
    let stages :=
      match db.stages.find? (fun r => r.stage_id = d.stage_id) with
      | none => db.stages
      | some row =>
        let report_count := reports.countP (fun r => r.stage_id = d.stage_id)
        let eval_count := db.evaluations.countP (fun e => e.stage_id = d.stage_id)
        let progress := update_stage_progress row.start_date row.end_date today
          report_count eval_count
        db.stages.map (fun r =>
          if r.stage_id = d.stage_id then { r with progress_percentage := progress } else r)
    ({ db with reports := reports, stages := stages },
     ⟨true, some report_id, "Rapport soumis avec succès"⟩)

/-- Payload of evaluate_stage (sub-scores read with `.get(k, 0)`). -/
structure EvaluationData where
  stage_id : String
  evaluator_id : String
  evaluator_type : String
  technical_skills_score : ℚ
  soft_skills_score : ℚ
  attendance_score : ℚ
  initiative_score : ℚ
  report_quality_score : ℚ
  comments : String
  recommendation : String
deriving DecidableEq, Repr

/-- Response of evaluate_stage. -/
inductive EvalResponse
  | ok (evaluation_id : String) (final_score : ℚ) (grade : String)
  | failed (message : String)
deriving DecidableEq, Repr

/-- StageManager.evaluate_stage: compute the weighted final score and
the grade, INSERT the evaluation row, and return both in the response.
The inline weight dict and if-chain are the same computation as
`final_score` and `gradeOfScore`. -/
def evaluate_stage (db : DB) (evaluation_id : String) (d : EvaluationData) (now : Int) :
    DB × EvalResponse :=
  let score := final_score d.technical_skills_score d.soft_skills_score
    d.attendance_score d.initiative_score d.report_quality_score
  let grade := gradeOfScore score
  if db.evaluations.any (fun e => e.evaluation_id = evaluation_id) then
    (db, EvalResponse.failed "Erreur")
  else
    let row : EvaluationRow :=
      ⟨evaluation_id, d.stage_id, d.evaluator_id, d.evaluator_type,
       d.technical_skills_score, d.soft_skills_score, d.attendance_score,
       d.initiative_score, d.report_quality_score, score, grade,
       d.comments, d.recommendation, now⟩
    ({ db with evaluations := db.evaluations ++ [row] }, EvalResponse.ok evaluation_id score grade)

/-- Payload of assign_supervisor. -/
structure SupervisorData where
  supervisor_id : String
  first_name : String
  last_name : String
  email : String
  phone : String
  supervisor_type : String
  institution_id : String
  department : String
  title : String
  assigned_by : String
deriving DecidableEq, Repr

/-- StageManager.assign_supervisor: create the supervisor row when the
id is unknown (a UNIQUE email collision makes the INSERT raise and the
`except` branch answer failure), point the stage's academic or company
supervisor column at it (no row check: an unknown stage id updates
nothing yet still succeeds), increment the supervisor's student count
and log the assignment. -/
def assign_supervisor (db : DB) (history_id stage_id : String) (d : SupervisorData)
    (now : Int) : DB × OpResponse :=
  let known := db.supervisors.any (fun s => s.supervisor_id = d.supervisor_id)
  if ¬ known ∧ db.supervisors.any (fun s => s.email = d.email) then
    (db, ⟨false, "Erreur"⟩)
  else
    let db := if known then db else
      { db with supervisors := db.supervisors ++
          [⟨d.supervisor_id, d.first_name, d.last_name, d.email, d.phone,
            d.supervisor_type, d.institution_id, d.department, d.title, 5, 0⟩] }
    let isAcademic := d.supervisor_type = "ACADEMIQUE"
    let stages := db.stages.map (fun r =>
      if r.stage_id = stage_id then
        if isAcademic then
          { r with academic_supervisor_id := some d.supervisor_id, updated_at := now }
        else
          { r with company_supervisor_id := some d.supervisor_id, updated_at := now }
      else r)
    let supervisors := db.supervisors.map (fun s =>
      if s.supervisor_id = d.supervisor_id then
        { s with current_students := s.current_students + 1 } else s)
    let fieldName := if isAcademic then "academic_supervisor_id" else "company_supervisor_id"
    let db := log_history { db with stages := stages, supervisors := supervisors }
      history_id stage_id "ASSIGN_SUPERVISOR" (some fieldName) none
      (some d.supervisor_id) d.assigned_by now
    (db, ⟨true, "Encadreur assigné avec succès"⟩)

/-- Statistics of get_statistics (grouped counts, average final score —
`AVG` of no rows is NULL, turned into 0 by `or 0` —, report total and
count of EN_COURS stages). -/
structure Statistics where
  by_status : List (String × Nat)
  by_region : List (String × Nat)
  by_university : List (String × Nat)
  average_score : ℚ
  total_reports : Nat
  active_stages : Nat
deriving DecidableEq, Repr

/-- StageManager.get_statistics. -/
def get_statistics (db : DB) : Statistics :=
  let groupBy (key : StageRow → String) : List (String × Nat) :=
    ((db.stages.map key).dedup).map
      (fun k => (k, db.stages.countP (fun r => key r = k)))
  { by_status := groupBy (fun r => r.status)
  , by_region := groupBy (fun r => r.company_region)
  , by_university := groupBy (fun r => r.university_name)
  , average_score := if db.evaluations.length = 0 then 0
      else (db.evaluations.map (fun e => e.final_score)).sum / (db.evaluations.length : ℚ)
  , total_reports := db.reports.length
  , active_stages := db.stages.countP (fun r => r.status = "EN_COURS") }

/-- Certificate data built by
EnhancedStageService.generate_stage_certificate. -/
structure Certificate where
  certificate_id : String
  stage_id : String
  student_name : String
  university_name : String
  company_name : String
  stage_title : String
  start_date : Int
  end_date : Int
  final_grade : String
deriving DecidableEq, Repr

/-- EnhancedStageService._get_final_grade: average the stored final
scores of the nested evaluations and band the mention. -/
def get_final_grade (evaluations : List EvaluationRow) : String :=
  if evaluations.length = 0 then "Non évalué"
  else
    let avg := (evaluations.map (fun e => e.final_score)).sum / (evaluations.length : ℚ)
    if avg ≥ 16 then "Excellent"
    else if avg ≥ 14 then "Très Bien"
    else if avg ≥ 12 then "Bien"
    else if avg ≥ 10 then "Passable"
    else "Insuffisant"

/-- EnhancedStageService.generate_stage_certificate. -/
def generate_stage_certificate (db : DB) (certificate_id stage_id : String) :
    Except String Certificate :=
  match get_stage db stage_id with
  | none => Except.error "Stage non trouvé"
  | some detail =>
    if detail.row.status ≠ "TERMINE" then Except.error "Le stage doit être terminé"
    else Except.ok ⟨certificate_id, stage_id, detail.row.student_name,
      detail.row.university_name, detail.row.company_name, detail.row.stage_title,
      detail.row.start_date, detail.row.end_date, get_final_grade detail.evaluations⟩

/-! ## Server session layer (StageServerManager, stage-server.py)

Python dicts keyed by the institution id are association lists with
insert-or-replace semantics; sockets are opaque numbers.  The
institution id in a message is `message.get('institution_id')` and may
be absent (None), so registry keys are `Option String`. -/

/-- Python dict assignment `d[k] = v`: replace the value at an existing
key in place, otherwise append the new entry. -/
def dictInsert {α : Type} (m : List (Option String × α)) (k : Option String) (v : α) :
    List (Option String × α) :=
  if m.any (fun p => p.1 = k) then
    m.map (fun p => if p.1 = k then (k, v) else p)
  else m ++ [(k, v)]

/-- Python `del d[k]` (and the cleanup path): drop the entry at `k`. -/
def dictRemove {α : Type} (m : List (Option String × α)) (k : Option String) :
    List (Option String × α) :=
  m.filter (fun p => p.1 ≠ k)

/-- Python `d[k]` lookup. -/
def dictGet {α : Type} (m : List (Option String × α)) (k : Option String) : Option α :=
  (m.find? (fun p => p.1 = k)).map (fun p => p.2)

/-- A connected institution, from dataclass ConnectedInstitution. -/
structure Institution where
  institution_id : Option String
  name : String
  institution_type : InstitutionType
  region : String
  city : String
  contact_email : String
  status : ConnectionStatus
  connected_at : Int
  last_activity : Int
  active_stages : Nat
deriving DecidableEq, Repr

/-- Mutable state of StageServerManager: the two registry dicts and the
running counters. -/
structure ServerState where
  connected_institutions : List (Option String × Institution)
  institution_sockets : List (Option String × Nat)
  total_stages_created : Nat
  total_reports_submitted : Nat
  total_evaluations : Nat
deriving DecidableEq, Repr

/-- Initial server state. -/
def ServerState.init : ServerState := ⟨[], [], 0, 0, 0⟩

/-- An incoming message envelope: the discriminator `type` plus every
payload key any handler reads, each optional as in a Python dict
(`message.get(k)`); `page` and `page_size` carry the handler defaults 1
and 20 when the key is absent, matching `message.get('page', 1)` and
`message.get('page_size', 20)`. -/
structure Message where
  type : String
  institution_id : Option String
  name : Option String
  institution_type : Option String
  region : Option String
  city : Option String
  contact_email : Option String
  stage_id : Option String
  field_name : Option String
  new_value : Option String
  updated_by : Option String
  requester_id : Option String
  stage_data : Option CreateStageData
  supervisor_data : Option SupervisorData
  report_data : Option ReportData
  evaluation_data : Option EvaluationData
  report_id : Option String
  reviewer_id : Option String
  feedback : Option String
  score : Option ℚ
  filters : ListFilters
  page : Int
  page_size : Int
deriving DecidableEq, Repr

/-- A message holding only a type, every payload key absent (defaults
apply). -/
def Message.ofType (t : String) : Message :=
  ⟨t, none, none, none, none, none, none, none, none, none, none, none,
   none, none, none, none, none, none, none, none, ListFilters.noFilters, 1, 20⟩

/-- Python exceptions that escape a handler into the connection loop
(whose `except Exception` clause breaks the loop and tears the
connection down). -/
inductive PyExn
  | valueError (message : String)
  | attributeError (message : String)
  | typeError (message : String)
  | zeroDivisionError
deriving DecidableEq, Repr

/-- Responses returned by _process_message, one constructor per
response dict shape. -/
inductive Response
  | registered (message : String) (institution_id : Option String)
  | heartbeatAck
  | opR (r : OpResponse)
  | createR (r : CreateResponse)
  | stageFound (s : StageDetail)
  | errorR (message : String)
  | listR (r : ListResponse)
  | reportR (r : ReportResponse)
  | evalR (r : EvalResponse)
  | supervisorsR (l : List SupervisorRow)
  | reportsR (l : List ReportRow)
  | evaluationsR (l : List EvaluationRow)
  | statsR (s : Statistics) (total_stages_created total_reports_submitted total_evaluations connected_institutions : Nat)
  | certificateR (c : Certificate)
deriving DecidableEq, Repr

/-- Fresh uuid4 strings consumed by the handlers of one message. -/
structure FreshIds where
  stage_id : String
  report_id : String
  evaluation_id : String
  certificate_id : String
  history_id : String
deriving DecidableEq, Repr

/-- StageServerManager._register_institution: construct the
ConnectedInstitution (the `InstitutionType(...)` enum coercion raises
ValueError on a value outside the enum, aborting the handler), then
insert-or-replace both registry entries for that id under the
connection lock and return the success acknowledgment. -/
def register_institution (st : ServerState) (msg : Message) (sock : Nat) (now : Int) :
    Except PyExn (Response × ServerState) :=
  match InstitutionType.ofValue ((msg.institution_type).getD "UNIVERSITE") with
  | none => Except.error (PyExn.valueError "is not a valid InstitutionType")
  | some ty =>
    let inst : Institution :=
      ⟨msg.institution_id, (msg.name).getD "", ty, (msg.region).getD "",
       (msg.city).getD "", (msg.contact_email).getD "",
       ConnectionStatus.connected, now, now, 0⟩
    Except.ok
      (Response.registered "Institution enregistrée avec succès" msg.institution_id,
       { st with
         connected_institutions := dictInsert st.connected_institutions msg.institution_id inst,
         institution_sockets := dictInsert st.institution_sockets msg.institution_id sock })

/-- StageServerManager._cleanup_disconnected_institution: remove the
institution from both registries. -/
def cleanup_disconnected_institution (st : ServerState) (iid : Option String) : ServerState :=
  { st with
    connected_institutions := dictRemove st.connected_institutions iid,
    institution_sockets := dictRemove st.institution_sockets iid }

/-- StageServerManager._handle_delete_stage: a soft delete through
update_stage, setting the status column to ANNULE. -/
def handle_delete_stage (db : DB) (history_id : String) (msg : Message) (now : Int) :
    DB × OpResponse :=
  update_stage db history_id ((msg.stage_id).getD "") "status" "ANNULE"
    ((msg.requester_id).getD "") now

/-- StageServerManager._handle_review_report: UPDATE the report row
(an unmatched report id updates nothing), then print a slice of the
report id — `message.get('report_id')[:8]` raises TypeError when the
key is absent, after the commit. -/
def handle_review_report (db : DB) (msg : Message) (now : Int) :
    Except PyExn (Response × DB) :=
  let reviewed : ReportRow → ReportRow := fun r =>
    { r with
      status := "EVALUE"
      reviewed_by := msg.reviewer_id
      review_date := some now
      feedback := some ((msg.feedback).getD "")
      score := some ((msg.score).getD 0) }
  let db := { db with reports := db.reports.map (fun r =>
    if some r.report_id = msg.report_id then reviewed r else r) }
  match msg.report_id with
  | none => Except.error (PyExn.typeError "NoneType is not subscriptable")
  | some _ => Except.ok (Response.opR ⟨true, "Rapport évalué"⟩, db)

/-- StageServerManager._process_message: dispatch on the message type.
Handlers that can raise propagate their exception to the connection
loop; every other branch returns a structured response.  The
list_supervisors branch calls `self.stage_manager._get_connection()`, a
method StageManager does not define, and therefore always raises
AttributeError.  Notification sends (_send_notification) are
best-effort socket writes with errors swallowed and do not affect the
returned response or stored state, so they are not modelled. -/
def process_message (st : ServerState) (db : DB) (msg : Message) (sock : Nat)
    (fresh : FreshIds) (now today : Int) :
    Except PyExn (Response × ServerState × DB) :=
  if msg.type = "register_institution" then
    (register_institution st msg sock now).map (fun (r, st) => (r, st, db))
  else if msg.type = "disconnect" then
    Except.ok (Response.opR ⟨true, "Déconnecté"⟩,
      cleanup_disconnected_institution st msg.institution_id, db)
  else if msg.type = "heartbeat_response" then
    Except.ok (Response.heartbeatAck, st, db)
  else if msg.type = "create_stage" then
    match msg.stage_data with
    | none => Except.ok (Response.createR ⟨false, none, "Erreur"⟩, st, db)
    | some d =>
      let (db, r) := create_stage db fresh.stage_id fresh.history_id d now
      let st := if r.success then { st with total_stages_created := st.total_stages_created + 1 } else st
      Except.ok (Response.createR r, st, db)
  else if msg.type = "update_stage" then
    let (db, r) := update_stage db fresh.history_id ((msg.stage_id).getD "")
      ((msg.field_name).getD "") ((msg.new_value).getD "") ((msg.updated_by).getD "") now
    Except.ok (Response.opR r, st, db)
  else if msg.type = "get_stage" then
    match get_stage db ((msg.stage_id).getD "") with
    | some s => Except.ok (Response.stageFound s, st, db)
    | none => Except.ok (Response.errorR "Stage non trouvé", st, db)
  else if msg.type = "list_stages" then
    match list_stages db msg.filters msg.page msg.page_size with
    | Except.ok r => Except.ok (Response.listR r, st, db)
    | Except.error _ => Except.error PyExn.zeroDivisionError
  else if msg.type = "delete_stage" then
    let (db, r) := handle_delete_stage db fresh.history_id msg now
    Except.ok (Response.opR r, st, db)
  else if msg.type = "assign_supervisor" then
    match msg.supervisor_data with
    | none => Except.ok (Response.opR ⟨false, "Erreur"⟩, st, db)
    | some d =>
      let (db, r) := assign_supervisor db fresh.history_id ((msg.stage_id).getD "") d now
      Except.ok (Response.opR r, st, db)
  else if msg.type = "list_supervisors" then
    Except.error (PyExn.attributeError "StageManager object has no attribute _get_connection")
  else if msg.type = "submit_report" then
    match msg.report_data with
    | none => Except.ok (Response.reportR ⟨false, none, "Erreur"⟩, st, db)
    | some d =>
      let (db, r) := submit_report db fresh.report_id d now today
      let st := if r.success then { st with total_reports_submitted := st.total_reports_submitted + 1 } else st
      Except.ok (Response.reportR r, st, db)
  else if msg.type = "list_reports" then
    Except.ok (Response.reportsR
      (db.reports.filter (fun r => some r.stage_id = msg.stage_id)), st, db)
  else if msg.type = "review_report" then
    (handle_review_report db msg now).map (fun (r, db) => (r, st, db))
  else if msg.type = "evaluate_stage" then
    match msg.evaluation_data with
    | none => Except.ok (Response.evalR (EvalResponse.failed "Erreur"), st, db)
    | some d =>
      let (db, r) := evaluate_stage db fresh.evaluation_id d now
      let st := match r with
        | EvalResponse.ok _ _ _ => { st with total_evaluations := st.total_evaluations + 1 }
        | EvalResponse.failed _ => st
      Except.ok (Response.evalR r, st, db)
  else if msg.type = "get_evaluations" then
    Except.ok (Response.evaluationsR
      (db.evaluations.filter (fun e => some e.stage_id = msg.stage_id)), st, db)
  else if msg.type = "get_statistics" then
    Except.ok (Response.statsR (get_statistics db) st.total_stages_created
      st.total_reports_submitted st.total_evaluations st.connected_institutions.length, st, db)
  else if msg.type = "generate_certificate" then
    match generate_stage_certificate db fresh.certificate_id ((msg.stage_id).getD "") with
    | Except.ok c => Except.ok (Response.certificateR c, st, db)
    | Except.error m => Except.ok (Response.errorR m, st, db)
  else
    Except.ok (Response.errorR ("Type de message inconnu: " ++ msg.type), st, db)

/-- The catalog of message types _process_message dispatches on. -/
def messageCatalog : List String :=
  ["register_institution", "disconnect", "heartbeat_response",
   "create_stage", "update_stage", "get_stage", "list_stages", "delete_stage",
   "assign_supervisor", "list_supervisors",
   "submit_report", "list_reports", "review_report",
   "evaluate_stage", "get_evaluations",
   "get_statistics", "generate_certificate"]

/-! ## Theorems -/

/-- C2: every evaluation created by evaluate_stage with sub-scores
(t, s, a, i, r) stores and returns a final score equal to
0.30·t + 0.20·s + 0.15·a + 0.15·i + 0.20·r, and the grade derived
from it is the A band at score ≥ 16, B on [14, 16), C on [12, 14),
D on [10, 12) and E below 10; in particular sub-scores
(18, 16, 14, 12, 15) yield final score 15.5 and the B grade. -/
theorem c2_evaluate_scoring (db : DB) (eid : String) (d : EvaluationData) (now : Int)
    (hfresh : ∀ e ∈ db.evaluations, e.evaluation_id ≠ eid) :
    ∃ row : EvaluationRow,
      (evaluate_stage db eid d now).1.evaluations = db.evaluations ++ [row] ∧
      (evaluate_stage db eid d now).2 = EvalResponse.ok eid row.final_score row.grade ∧
      row.final_score = (30/100) * d.technical_skills_score + (20/100) * d.soft_skills_score
        + (15/100) * d.attendance_score + (15/100) * d.initiative_score
        + (20/100) * d.report_quality_score ∧
      (row.final_score ≥ 16 → row.grade = "A - Excellent") ∧
      (14 ≤ row.final_score ∧ row.final_score < 16 → row.grade = "B - Très Bien") ∧
      (12 ≤ row.final_score ∧ row.final_score < 14 → row.grade = "C - Bien") ∧
      (10 ≤ row.final_score ∧ row.final_score < 12 → row.grade = "D - Passable") ∧
      (row.final_score < 10 → row.grade = "E - Insuffisant") ∧
      (d.technical_skills_score = 18 → d.soft_skills_score = 16 → d.attendance_score = 14 →
        d.initiative_score = 12 → d.report_quality_score = 15 →
        row.final_score = 31/2 ∧ row.grade = "B - Très Bien") := by
  have hany : db.evaluations.any (fun e => e.evaluation_id = eid) = false := by
    rw [List.any_eq_false]
    intro e he
    simpa using hfresh e he
  refine ⟨⟨eid, d.stage_id, d.evaluator_id, d.evaluator_type,
    d.technical_skills_score, d.soft_skills_score, d.attendance_score,
    d.initiative_score, d.report_quality_score,
    final_score d.technical_skills_score d.soft_skills_score d.attendance_score
      d.initiative_score d.report_quality_score,
    gradeOfScore (final_score d.technical_skills_score d.soft_skills_score d.attendance_score
      d.initiative_score d.report_quality_score),
    d.comments, d.recommendation, now⟩, ?_, ?_, ?_, ?_, ?_, ?_, ?_, ?_, ?_⟩
  · simp [evaluate_stage, hany]
  · simp [evaluate_stage, hany]
  · show final_score _ _ _ _ _ = _
    unfold final_score; ring
  · intro h
    show gradeOfScore _ = _
    rw [gradeOfScore, if_pos h]
  · rintro ⟨h1, h2⟩
    show gradeOfScore _ = _
    rw [gradeOfScore, if_neg (by exact not_le.mpr h2), if_pos h1]
  · rintro ⟨h1, h2⟩
    show gradeOfScore _ = _
    rw [gradeOfScore, if_neg (by exact not_le.mpr (by linarith)),
      if_neg (by exact not_le.mpr h2), if_pos h1]
  · rintro ⟨h1, h2⟩
    show gradeOfScore _ = _
    rw [gradeOfScore, if_neg (by exact not_le.mpr (by linarith)),
      if_neg (by exact not_le.mpr (by linarith)), if_neg (by exact not_le.mpr h2), if_pos h1]
  · intro h
    show gradeOfScore _ = _
    rw [gradeOfScore, if_neg (by exact not_le.mpr (by linarith)),
      if_neg (by exact not_le.mpr (by linarith)), if_neg (by exact not_le.mpr (by linarith)),
      if_neg (by exact not_le.mpr h)]
  · intro e1 e2 e3 e4 e5
    constructor
    · show final_score _ _ _ _ _ = _
      rw [e1, e2, e3, e4, e5]
      norm_num [final_score]
    · show gradeOfScore (final_score _ _ _ _ _) = _
      rw [e1, e2, e3, e4, e5]
      norm_num [final_score, gradeOfScore]

/-- Witness for C2 at the example sub-scores (18, 16, 14, 12, 15) on an
empty database. -/
theorem c2_witness :
    ∃ row : EvaluationRow,
      (evaluate_stage DB.empty "e1"
        ⟨"s1", "ev1", "ACADEMIQUE", 18, 16, 14, 12, 15, "", ""⟩ 0).1.evaluations
        = DB.empty.evaluations ++ [row] ∧
      (evaluate_stage DB.empty "e1"
        ⟨"s1", "ev1", "ACADEMIQUE", 18, 16, 14, 12, 15, "", ""⟩ 0).2
        = EvalResponse.ok "e1" row.final_score row.grade ∧
      row.final_score = 31/2 ∧ row.grade = "B - Très Bien" := by
  obtain ⟨row, h1, h2, _, _, _, _, _, _, hex⟩ :=
    c2_evaluate_scoring DB.empty "e1"
      ⟨"s1", "ev1", "ACADEMIQUE", 18, 16, 14, 12, 15, "", ""⟩ 0 (by simp [DB.empty])
  obtain ⟨hs, hg⟩ := hex rfl rfl rfl rfl rfl
  exact ⟨row, h1, h2, hs, hg⟩

/-- C10: validate_stage_creation runs no date or duration check when
either date is absent; with the five required fields non-empty it
returns ok with no errors and no warnings, so a stage without dates
passes creation validation. -/
theorem c10_no_date_no_check (d : CreationData) (now : Int)
    (hdate : d.start_date = none ∨ d.end_date = none)
    (h1 : d.student_id ≠ "") (h2 : d.company_id ≠ "") (h3 : d.university_id ≠ "")
    (h4 : d.title ≠ "") (h5 : d.stage_type ≠ "") :
    validate_stage_creation d now = (true, [], []) := by
  unfold validate_stage_creation
  rcases hdate with h | h <;>
    rcases hsd : d.start_date with _ | sd <;> rcases hed : d.end_date with _ | ed <;>
    simp_all [h1, h2, h3, h4, h5]

/-- Witness for C10: a payload with no start date and the five required
fields filled passes with no errors and no warnings. -/
theorem c10_witness :
    validate_stage_creation ⟨none, some 100, "s1", "c1", "u1", "titre", "ACADEMIQUE"⟩ 0
      = (true, [], []) :=
  c10_no_date_no_check _ 0 (Or.inl rfl) (by simp) (by simp) (by simp) (by simp) (by simp)

/-- C5 counterexample: a creation payload spanning 183 days (start day 0,
end day 183) is strictly longer than 26 weeks (182 days), yet
validate_stage_creation accepts it with no errors, because the code
compares the floor of days/7 with 26: the claim "ok = false whenever
the period is longer than 26 weeks" is false. -/
theorem c5_counterexample :
    (26 * 7 : Int) < 183 ∧
    validate_stage_creation ⟨some 0, some 183, "s1", "c1", "u1", "titre", "ACADEMIQUE"⟩ 0
      = (true, [], []) := by
  constructor
  · norm_num
  · decide

/-- Counting one missing-field error per empty required field: the
filterMap of the required-field check contributes, for a given field
name, exactly the number of pairs carrying that name with an empty
value. -/
theorem count_missingField_filterMap (name : String) (l : List (String × String)) :
    (l.filterMap
      (fun p => if p.2 = "" then some (CreationError.missingField p.1) else none)).count
      (CreationError.missingField name)
    = l.countP (fun p => p.1 = name && p.2 = "") := by
  induction l with
  | nil => rfl
  | cons p t ih =>
    by_cases h2 : p.2 = "" <;> by_cases h1 : p.1 = name <;>
      simp [List.filterMap_cons, h1, h2, List.count_cons, List.countP_cons, ih]

/-- Duration errors never come out of the required-field filterMap. -/
theorem duration_not_mem_filterMap (e : CreationError)
    (hne : ∀ n, e ≠ CreationError.missingField n) (l : List (String × String)) :
    e ∉ l.filterMap
      (fun p => if p.2 = "" then some (CreationError.missingField p.1) else none) := by
  intro hmem
  obtain ⟨p, _, hp⟩ := List.mem_filterMap.mp hmem
  by_cases h : p.2 = "" <;> simp [h] at hp
  exact hne p.1 hp.symm

/-- Closed form of validate_stage_creation when both dates are
present. -/
theorem validate_stage_creation_eq (d : CreationData) (now sd ed : Int)
    (hs : d.start_date = some sd) (he : d.end_date = some ed) :
    validate_stage_creation d now =
      (((((if (ed - sd).fdiv 7 < MINIMUM_DURATION_WEEKS
            then [CreationError.minDuration] else []) ++
          (if (ed - sd).fdiv 7 > MAXIMUM_DURATION_WEEKS
            then [CreationError.maxDuration] else [])) ++
         ([("student_id", d.student_id), ("company_id", d.company_id),
           ("university_id", d.university_id), ("title", d.title),
           ("stage_type", d.stage_type)].filterMap
           (fun p => if p.2 = "" then some (CreationError.missingField p.1) else none))).isEmpty,
        (((if (ed - sd).fdiv 7 < MINIMUM_DURATION_WEEKS
            then [CreationError.minDuration] else []) ++
          (if (ed - sd).fdiv 7 > MAXIMUM_DURATION_WEEKS
            then [CreationError.maxDuration] else [])) ++
         ([("student_id", d.student_id), ("company_id", d.company_id),
           ("university_id", d.university_id), ("title", d.title),
           ("stage_type", d.stage_type)].filterMap
           (fun p => if p.2 = "" then some (CreationError.missingField p.1) else none))),
        if sd < now then [CreationWarning.startInPast] else [])) := by
  unfold validate_stage_creation
  rw [hs, he]

set_option maxHeartbeats 1000000 in
/-- C5 (amended): with both dates present, validate_stage_creation
returns a duration error exactly when the whole-week duration
`(days // 7)` is below 4 or above 26 — so a period strictly longer
than 26 weeks but below 27 whole weeks passes — and ok is then false;
it returns one missing-field error per empty required field among
student_id, company_id, university_id, title, stage_type; a start date
before now yields exactly the past-start warning, and with no duration
violation and all required fields present the warning alone leaves
ok = true. -/
theorem c5_creation_validation (d : CreationData) (now sd ed : Int)
    (hs : d.start_date = some sd) (he : d.end_date = some ed) :
    ((CreationError.minDuration ∈ (validate_stage_creation d now).2.1) ↔
      (ed - sd).fdiv 7 < 4) ∧
    ((CreationError.maxDuration ∈ (validate_stage_creation d now).2.1) ↔
      26 < (ed - sd).fdiv 7) ∧
    (((ed - sd).fdiv 7 < 4 ∨ 26 < (ed - sd).fdiv 7) →
      (validate_stage_creation d now).1 = false) ∧
    ((validate_stage_creation d now).2.1.count (CreationError.missingField "student_id")
      = if d.student_id = "" then 1 else 0) ∧
    ((validate_stage_creation d now).2.1.count (CreationError.missingField "company_id")
      = if d.company_id = "" then 1 else 0) ∧
    ((validate_stage_creation d now).2.1.count (CreationError.missingField "university_id")
      = if d.university_id = "" then 1 else 0) ∧
    ((validate_stage_creation d now).2.1.count (CreationError.missingField "title")
      = if d.title = "" then 1 else 0) ∧
    ((validate_stage_creation d now).2.1.count (CreationError.missingField "stage_type")
      = if d.stage_type = "" then 1 else 0) ∧
    ((validate_stage_creation d now).2.2
      = if sd < now then [CreationWarning.startInPast] else []) ∧
    (¬ (ed - sd).fdiv 7 < 4 → ¬ 26 < (ed - sd).fdiv 7 →
      d.student_id ≠ "" → d.company_id ≠ "" → d.university_id ≠ "" →
      d.title ≠ "" → d.stage_type ≠ "" → (validate_stage_creation d now).1 = true) := by
  rw [validate_stage_creation_eq d now sd ed hs he]
  simp only [MINIMUM_DURATION_WEEKS, MAXIMUM_DURATION_WEEKS, gt_iff_lt]
  have hmin := duration_not_mem_filterMap CreationError.minDuration (by intro n h; cases h)
  have hmax := duration_not_mem_filterMap CreationError.maxDuration (by intro n h; cases h)
  refine ⟨?_, ?_, ?_, ?_, ?_, ?_, ?_, ?_, ?_, ?_⟩
  · split_ifs with h1 h2 <;>
      simp [List.mem_append, hmin _, h1]
  · split_ifs with h1 h2 <;>
      simp [List.mem_append, hmax _, *]
  · clear hmin hmax hs he
    intro h
    rcases h with h | h <;> split_ifs <;> simp_all
  · clear hmin hmax hs he
    simp only [List.count_append, count_missingField_filterMap, List.countP_cons,
      List.countP_nil]
    split_ifs <;> simp_all
  · clear hmin hmax hs he
    simp only [List.count_append, count_missingField_filterMap, List.countP_cons,
      List.countP_nil]
    split_ifs <;> simp_all
  · clear hmin hmax hs he
    simp only [List.count_append, count_missingField_filterMap, List.countP_cons,
      List.countP_nil]
    split_ifs <;> simp_all
  · clear hmin hmax hs he
    simp only [List.count_append, count_missingField_filterMap, List.countP_cons,
      List.countP_nil]
    split_ifs <;> simp_all
  · clear hmin hmax hs he
    simp only [List.count_append, count_missingField_filterMap, List.countP_cons,
      List.countP_nil]
    split_ifs <;> simp_all
  · trivial
  · intro h1 h2 n1 n2 n3 n4 n5
    rw [if_neg h1, if_neg h2]
    simp [List.filterMap_cons, n1, n2, n3, n4, n5]

/-- Witness for C5 at the example of the claim: start 2025-01-01 and
end 2025-01-20 are 19 days apart (day numbers 0 and 19), which is two
whole weeks, so validation fails with the minimum-duration error. -/
theorem c5_witness :
    (CreationError.minDuration ∈
      (validate_stage_creation ⟨some 0, some 19, "s1", "c1", "u1", "titre", "ACADEMIQUE"⟩ 0).2.1)
    ∧ (validate_stage_creation ⟨some 0, some 19, "s1", "c1", "u1", "titre", "ACADEMIQUE"⟩ 0).1
        = false := by
  obtain ⟨hmin, _, hok, _⟩ :=
    c5_creation_validation ⟨some 0, some 19, "s1", "c1", "u1", "titre", "ACADEMIQUE"⟩ 0 0 19 rfl rfl
  exact ⟨hmin.mpr (by decide), hok (Or.inl (by decide))⟩

/-- Looking up the key just written by a dict insert yields the new
value. -/
theorem dictGet_dictInsert {α : Type} (m : List (Option String × α))
    (k : Option String) (v : α) : dictGet (dictInsert m k v) k = some v := by
  unfold dictInsert dictGet
  by_cases hany : m.any (fun p => p.1 = k) = true
  · rw [if_pos hany]
    induction m with
    | nil => simp at hany
    | cons p t ih =>
      by_cases hp : p.1 = k
      · simp [List.find?_cons, hp]
      · have : t.any (fun p => p.1 = k) = true := by
          simp only [List.any_cons] at hany
          simpa [hp] using hany
        simpa [List.find?_cons, hp] using ih this
  · rw [if_neg hany]
    rw [Bool.not_eq_true] at hany
    simp only [List.any_eq_false, decide_eq_true_eq] at hany
    induction m with
    | nil => simp [List.find?_cons]
    | cons p t ih =>
      have hp : ¬ p.1 = k := hany p (by simp)
      have ht : ∀ q ∈ t, ¬ q.1 = k := fun q hq => hany q (List.mem_cons_of_mem p hq)
      simpa [List.find?_cons, hp] using ih ht

/-- A dict insert leaves exactly one entry for the inserted key when
the dict held at most one before (a Python dict always does). -/
theorem countP_dictInsert {α : Type} (m : List (Option String × α))
    (k : Option String) (v : α)
    (h : m.countP (fun p => p.1 = k) ≤ 1) :
    (dictInsert m k v).countP (fun p => p.1 = k) = 1 := by
  unfold dictInsert
  by_cases hany : m.any (fun p => p.1 = k) = true
  · rw [if_pos hany]
    have hpos : 0 < m.countP (fun p => p.1 = k) := by
      rw [List.countP_pos_iff]
      obtain ⟨p, hp, hpk⟩ := List.any_eq_true.mp hany
      exact ⟨p, hp, hpk⟩
    have hcount : (m.map (fun p => if p.1 = k then (k, v) else p)).countP
        (fun p => p.1 = k) = m.countP (fun p => p.1 = k) := by
      rw [List.countP_map]
      refine List.countP_congr ?_
      intro p _
      by_cases hp : p.1 = k <;> simp [hp]
    rw [hcount]
    omega
  · rw [if_neg hany]
    rw [Bool.not_eq_true, List.any_eq_false] at hany
    have h0 : m.countP (fun p => p.1 = k) = 0 :=
      List.countP_eq_zero.mpr (fun p hp => by simpa using hany p hp)
    rw [List.countP_append, h0]
    simp

/-- Explicit output of register_institution when the institution type
value parses. -/
theorem register_institution_eq (st : ServerState) (msg : Message) (sock : Nat) (now : Int)
    (t : InstitutionType)
    (ht : InstitutionType.ofValue ((msg.institution_type).getD "UNIVERSITE") = some t) :
    register_institution st msg sock now = Except.ok
      (Response.registered "Institution enregistrée avec succès" msg.institution_id,
       { st with
         connected_institutions := dictInsert st.connected_institutions msg.institution_id
           ⟨msg.institution_id, (msg.name).getD "", t, (msg.region).getD "",
            (msg.city).getD "", (msg.contact_email).getD "",
            ConnectionStatus.connected, now, now, 0⟩,
         institution_sockets := dictInsert st.institution_sockets msg.institution_id sock }) := by
  unfold register_institution
  rw [ht]

/-- C4: processing two register_institution requests with the same
institution id one after the other (each on its own socket) leaves
exactly one entry for that id in the metadata registry and one in the
socket registry, the socket registry pointing at the second socket;
the second registration is not rejected and returns the same success
acknowledgment as the first.  The hypothesis that the starting registry
holds at most one entry per key is the Python dict invariant. -/
theorem c4_reregistration (st : ServerState) (m1 m2 : Message) (s1 s2 : Nat)
    (now1 now2 : Int) (iid : String)
    (hid1 : m1.institution_id = some iid) (hid2 : m2.institution_id = some iid)
    (hty1 : ∃ t, InstitutionType.ofValue ((m1.institution_type).getD "UNIVERSITE") = some t)
    (hty2 : ∃ t, InstitutionType.ofValue ((m2.institution_type).getD "UNIVERSITE") = some t)
    (hinv1 : st.connected_institutions.countP (fun p => p.1 = some iid) ≤ 1)
    (hinv2 : st.institution_sockets.countP (fun p => p.1 = some iid) ≤ 1) :
    ∃ st1 st2 : ServerState,
      register_institution st m1 s1 now1 =
        Except.ok (Response.registered "Institution enregistrée avec succès" (some iid), st1) ∧
      register_institution st1 m2 s2 now2 =
        Except.ok (Response.registered "Institution enregistrée avec succès" (some iid), st2) ∧
      st2.connected_institutions.countP (fun p => p.1 = some iid) = 1 ∧
      st2.institution_sockets.countP (fun p => p.1 = some iid) = 1 ∧
      dictGet st2.institution_sockets (some iid) = some s2 := by
  obtain ⟨t1, ht1⟩ := hty1
  obtain ⟨t2, ht2⟩ := hty2
  have h1 := register_institution_eq st m1 s1 now1 t1 ht1
  rw [hid1] at h1
  have h2 := register_institution_eq
    { st with
      connected_institutions := dictInsert st.connected_institutions (some iid)
        ⟨some iid, (m1.name).getD "", t1, (m1.region).getD "",
         (m1.city).getD "", (m1.contact_email).getD "",
         ConnectionStatus.connected, now1, now1, 0⟩,
      institution_sockets := dictInsert st.institution_sockets (some iid) s1 }
    m2 s2 now2 t2 ht2
  rw [hid2] at h2
  exact ⟨_, _, h1, h2,
    countP_dictInsert _ _ _ (le_of_eq (countP_dictInsert _ _ _ hinv1)),
    countP_dictInsert _ _ _ (le_of_eq (countP_dictInsert _ _ _ hinv2)),
    dictGet_dictInsert _ _ _⟩

/-- Witness for C4: registering "univ_uy1" twice from the initial
state, on sockets 1 and 2. -/
theorem c4_witness :
    ∃ st1 st2 : ServerState,
      register_institution ServerState.init
        { Message.ofType "register_institution" with institution_id := some "univ_uy1" }
        1 0 =
        Except.ok (Response.registered "Institution enregistrée avec succès"
          (some "univ_uy1"), st1) ∧
      register_institution st1
        { Message.ofType "register_institution" with institution_id := some "univ_uy1" }
        2 0 =
        Except.ok (Response.registered "Institution enregistrée avec succès"
          (some "univ_uy1"), st2) ∧
      st2.connected_institutions.countP (fun p => p.1 = some "univ_uy1") = 1 ∧
      st2.institution_sockets.countP (fun p => p.1 = some "univ_uy1") = 1 ∧
      dictGet st2.institution_sockets (some "univ_uy1") = some 2 :=
  c4_reregistration ServerState.init
    { Message.ofType "register_institution" with institution_id := some "univ_uy1" }
    { Message.ofType "register_institution" with institution_id := some "univ_uy1" }
    1 2 0 0 "univ_uy1" rfl rfl ⟨InstitutionType.university, rfl⟩
    ⟨InstitutionType.university, rfl⟩ (by simp [ServerState.init]) (by simp [ServerState.init])

/-- Python integer division `(n + k - 1) // k` is the ceiling of `n / k`
for a positive divisor. -/
theorem fdiv_add_sub_one_eq_ceil (n : Nat) (k : Int) (hk : 0 < k) :
    ((n : Int) + k - 1).fdiv k = ⌈(n : ℚ) / (k : ℚ)⌉ := by
  rw [Int.fdiv_eq_ediv _ hk.le]
  symm
  rw [Int.ceil_eq_iff]
  have hdm := Int.ediv_add_emod ((n : Int) + k - 1) k
  have hm0 : 0 ≤ ((n : Int) + k - 1) % k := Int.emod_nonneg _ (ne_of_gt hk)
  have hmk : ((n : Int) + k - 1) % k < k := Int.emod_lt_of_pos _ hk
  have hkq : (0 : ℚ) < (k : ℚ) := by exact_mod_cast hk
  have hq1 : k * (((n : Int) + k - 1) / k) ≤ (n : Int) + k - 1 := by linarith
  have hq2 : (n : Int) ≤ k * (((n : Int) + k - 1) / k) := by linarith
  have hq1q : (k : ℚ) * ((((n : Int) + k - 1) / k : Int) : ℚ) ≤ (n : ℚ) + (k : ℚ) - 1 := by
    exact_mod_cast hq1
  have hq2q : (n : ℚ) ≤ (k : ℚ) * ((((n : Int) + k - 1) / k : Int) : ℚ) := by
    exact_mod_cast hq2
  constructor
  · rw [lt_div_iff₀ hkq]
    have hexp : (((((n : Int) + k - 1) / k : Int) : ℚ) - 1) * (k : ℚ)
        = (k : ℚ) * ((((n : Int) + k - 1) / k : Int) : ℚ) - (k : ℚ) := by ring
    rw [hexp]
    linarith
  · rw [div_le_iff₀ hkq]
    have hexp : ((((n : Int) + k - 1) / k : Int) : ℚ) * (k : ℚ)
        = (k : ℚ) * ((((n : Int) + k - 1) / k : Int) : ℚ) := by ring
    rw [hexp]
    linarith

/-- C8: for every list_stages call with positive page_size the response
exists (no error), its total_pages equals the ceiling of total_count
over page_size, it echoes the requested page and page_size, and
total_count is the number of stages matching the filters. -/
theorem c8_pagination (db : DB) (f : ListFilters) (page page_size : Int)
    (hps : 0 < page_size) :
    ∃ r : ListResponse, list_stages db f page page_size = Except.ok r ∧
      r.total_pages = ⌈(r.total_count : ℚ) / (page_size : ℚ)⌉ ∧
      r.page = page ∧ r.page_size = page_size ∧
      r.total_count = (db.stages.filter (stage_matches f)).length := by
  refine ⟨⟨(if page_size < 0 then (db.stages.filter (stage_matches f)).drop
        ((page - 1) * page_size).toNat
      else (((db.stages.filter (stage_matches f)).drop
        ((page - 1) * page_size).toNat).take page_size.toNat)),
    (db.stages.filter (stage_matches f)).length, page, page_size,
    (((db.stages.filter (stage_matches f)).length : Int) + page_size - 1).fdiv page_size⟩,
    ?_, ?_, rfl, rfl, rfl⟩
  · unfold list_stages
    rw [if_neg (by omega)]
  · exact fdiv_add_sub_one_eq_ceil _ _ hps

/-- Witness for C8: a database of 45 stages with no filters and
page_size 20 yields total_pages 3. -/
theorem c8_witness :
    ∃ r : ListResponse,
      list_stages ⟨List.replicate 45
        ⟨"s", "st", "n", "e", "p", "u", "un", "d", "l", "c", "cn", "ca", "cc", "cr",
         "t", "de", "ty", 0, 100, "EN_ATTENTE", none, none, 0, 0, 0⟩, [], [], [], []⟩
        ListFilters.noFilters 1 20 = Except.ok r ∧
      r.total_count = 45 ∧ r.total_pages = 3 := by
  obtain ⟨r, hok, hceil, _, _, hcount⟩ :=
    c8_pagination ⟨List.replicate 45
      ⟨"s", "st", "n", "e", "p", "u", "un", "d", "l", "c", "cn", "ca", "cc", "cr",
       "t", "de", "ty", 0, 100, "EN_ATTENTE", none, none, 0, 0, 0⟩, [], [], [], []⟩
      ListFilters.noFilters 1 20 (by norm_num)
  have h45 : r.total_count = 45 := by
    rw [hcount]
    rw [List.filter_eq_self.mpr]
    · simp
    · intro a ha
      rw [List.eq_of_mem_replicate ha]
      rfl
  refine ⟨r, hok, h45, ?_⟩
  rw [hceil, h45]
  norm_num
  rw [Int.ceil_eq_iff]
  norm_num

/-- C6: create_stage with a fresh id followed by get_stage on the
returned id succeeds and round-trips every mutable field (student,
university, company descriptors, title, description, type, start and
end dates), with the initial PENDING status value EN_ATTENTE and empty
nested reports and evaluations lists.  The freshness hypotheses are
what uuid4 provides. -/
theorem c6_roundtrip (db : DB) (sid hid : String) (d : CreateStageData) (now : Int)
    (hfresh : ∀ r ∈ db.stages, r.stage_id ≠ sid)
    (hrep : ∀ r ∈ db.reports, r.stage_id ≠ sid)
    (hev : ∀ e ∈ db.evaluations, e.stage_id ≠ sid) :
    (create_stage db sid hid d now).2.success = true ∧
    (create_stage db sid hid d now).2.stage_id = some sid ∧
    ∃ detail : StageDetail,
      get_stage (create_stage db sid hid d now).1 sid = some detail ∧
      detail.row.student_id = d.student_id ∧
      detail.row.student_name = d.student_name ∧
      detail.row.student_email = d.student_email ∧
      detail.row.student_phone = d.student_phone ∧
      detail.row.university_id = d.university_id ∧
      detail.row.university_name = d.university_name ∧
      detail.row.department = d.department ∧
      detail.row.academic_level = d.academic_level ∧
      detail.row.company_id = d.company_id ∧
      detail.row.company_name = d.company_name ∧
      detail.row.company_address = d.company_address ∧
      detail.row.company_city = d.company_city ∧
      detail.row.company_region = d.company_region ∧
      detail.row.stage_title = d.stage_title ∧
      detail.row.stage_description = d.stage_description ∧
      detail.row.stage_type = d.stage_type ∧
      detail.row.start_date = d.start_date ∧
      detail.row.end_date = d.end_date ∧
      detail.row.status = "EN_ATTENTE" ∧
      detail.reports = [] ∧
      detail.evaluations = [] := by
  have hany : db.stages.any (fun r => r.stage_id = sid) = false := by
    rw [List.any_eq_false]
    intro r hr
    simpa using hfresh r hr
  have hcs : create_stage db sid hid d now =
      ({ db with
          stages := db.stages ++
            [⟨sid, d.student_id, d.student_name, d.student_email, d.student_phone,
              d.university_id, d.university_name, d.department, d.academic_level,
              d.company_id, d.company_name, d.company_address, d.company_city,
              d.company_region, d.stage_title, d.stage_description, d.stage_type,
              d.start_date, d.end_date, "EN_ATTENTE", none, none, 0, now, now⟩],
          history := db.history ++
            [⟨hid, sid, "CREATE", none, none, some "stage_data", d.created_by, now⟩] },
       ⟨true, some sid, "Stage créé avec succès"⟩) := by
    unfold create_stage log_history
    rw [hany]
    rfl
  rw [hcs]
  refine ⟨rfl, rfl, ?_⟩
  have hfind : (db.stages ++
      [(⟨sid, d.student_id, d.student_name, d.student_email, d.student_phone,
        d.university_id, d.university_name, d.department, d.academic_level,
        d.company_id, d.company_name, d.company_address, d.company_city,
        d.company_region, d.stage_title, d.stage_description, d.stage_type,
        d.start_date, d.end_date, "EN_ATTENTE", none, none, 0, now, now⟩ : StageRow)]).find?
      (fun r => r.stage_id = sid) = some
        ⟨sid, d.student_id, d.student_name, d.student_email, d.student_phone,
         d.university_id, d.university_name, d.department, d.academic_level,
         d.company_id, d.company_name, d.company_address, d.company_city,
         d.company_region, d.stage_title, d.stage_description, d.stage_type,
         d.start_date, d.end_date, "EN_ATTENTE", none, none, 0, now, now⟩ := by
    rw [List.find?_append]
    have h1 : db.stages.find? (fun r => r.stage_id = sid) = none := by
      rw [List.find?_eq_none]
      intro r hr
      simpa using hfresh r hr
    rw [h1]
    simp [List.find?_cons]
  have hrepf : db.reports.filter (fun r => r.stage_id = sid) = [] := by
    rw [List.filter_eq_nil_iff]
    intro r hr
    simpa using hrep r hr
  have hevf : db.evaluations.filter (fun e => e.stage_id = sid) = [] := by
    rw [List.filter_eq_nil_iff]
    intro e he
    simpa using hev e he
  refine ⟨⟨⟨sid, d.student_id, d.student_name, d.student_email, d.student_phone,
      d.university_id, d.university_name, d.department, d.academic_level,
      d.company_id, d.company_name, d.company_address, d.company_city,
      d.company_region, d.stage_title, d.stage_description, d.stage_type,
      d.start_date, d.end_date, "EN_ATTENTE", none, none, 0, now, now⟩, [], []⟩,
    ?_, rfl, rfl, rfl, rfl, rfl, rfl, rfl, rfl, rfl, rfl, rfl, rfl, rfl, rfl, rfl,
    rfl, rfl, rfl, rfl, rfl, rfl⟩
  unfold get_stage
  rw [hfind, hrepf, hevf]

/-- Witness for C6 on the empty database. -/
theorem c6_witness :
    (create_stage DB.empty "sid1" "h1"
      ⟨"s", "sn", "se", "sp", "u", "un", "dep", "lvl", "c", "cn", "ca", "cc", "cr",
       "titre", "desc", "ACADEMIQUE", 0, 100, "admin"⟩ 5).2.success = true ∧
    ∃ detail : StageDetail,
      get_stage (create_stage DB.empty "sid1" "h1"
        ⟨"s", "sn", "se", "sp", "u", "un", "dep", "lvl", "c", "cn", "ca", "cc", "cr",
         "titre", "desc", "ACADEMIQUE", 0, 100, "admin"⟩ 5).1 "sid1" = some detail ∧
      detail.row.stage_title = "titre" ∧ detail.row.status = "EN_ATTENTE" ∧
      detail.reports = [] ∧ detail.evaluations = [] := by
  obtain ⟨hs, _, detail, hget, hfields⟩ :=
    c6_roundtrip DB.empty "sid1" "h1"
      ⟨"s", "sn", "se", "sp", "u", "un", "dep", "lvl", "c", "cn", "ca", "cc", "cr",
       "titre", "desc", "ACADEMIQUE", 0, 100, "admin"⟩ 5
      (by simp [DB.empty]) (by simp [DB.empty]) (by simp [DB.empty])
  exact ⟨hs, detail, hget, hfields.2.2.2.2.2.2.2.2.2.2.2.2.2.1,
    hfields.2.2.2.2.2.2.2.2.2.2.2.2.2.2.2.2.2.2.1,
    hfields.2.2.2.2.2.2.2.2.2.2.2.2.2.2.2.2.2.2.2.1,
    hfields.2.2.2.2.2.2.2.2.2.2.2.2.2.2.2.2.2.2.2.2⟩

/-- find? commutes with a map that preserves the predicate. -/
theorem find?_map_of_pred {α : Type} (l : List α) (p : α → Bool) (f : α → α)
    (h : ∀ a, p (f a) = p a) :
    (l.map f).find? p = (l.find? p).map f := by
  induction l with
  | nil => rfl
  | cons a t ih =>
    by_cases ha : p a = true
    · rw [List.map_cons, List.find?_cons_of_pos _ (by rw [h a]; exact ha),
        List.find?_cons_of_pos _ ha]
      rfl
    · rw [List.map_cons, List.find?_cons_of_neg _ (by rw [h a]; simpa using ha),
        List.find?_cons_of_neg _ (by simpa using ha), ih]

/-- C9: handling delete_stage for an existing stage is a soft delete
through the ordinary field-update path: the row is kept, its status
column becomes ANNULE and its updated_at timestamp is refreshed, every
other column and every other table is unchanged, exactly one UPDATE
history entry is appended, and get_stage still returns the stage. -/
theorem c9_soft_delete (db : DB) (hid : String) (msg : Message) (now : Int)
    (sid : String) (row : StageRow)
    (hsid : msg.stage_id = some sid)
    (hfind : db.stages.find? (fun r => r.stage_id = sid) = some row) :
    (handle_delete_stage db hid msg now).2 = ⟨true, "Stage mis à jour avec succès"⟩ ∧
    (handle_delete_stage db hid msg now).1.stages =
      db.stages.map (fun r => if r.stage_id = sid
        then { r with status := "ANNULE", updated_at := now } else r) ∧
    (handle_delete_stage db hid msg now).1.reports = db.reports ∧
    (handle_delete_stage db hid msg now).1.evaluations = db.evaluations ∧
    (handle_delete_stage db hid msg now).1.supervisors = db.supervisors ∧
    (handle_delete_stage db hid msg now).1.history = db.history ++
      [⟨hid, sid, "UPDATE", some "status", some row.status, some "ANNULE",
        (msg.requester_id).getD "", now⟩] ∧
    get_stage (handle_delete_stage db hid msg now).1 sid = some
      ⟨{ row with status := "ANNULE", updated_at := now },
       db.reports.filter (fun r => r.stage_id = sid),
       db.evaluations.filter (fun e => e.stage_id = sid)⟩ := by
  have hrowid : row.stage_id = sid := by
    have := List.find?_some hfind
    simpa using this
  have hgetter : stage_field_getter "status" row = some row.status := rfl
  have hdel : handle_delete_stage db hid msg now =
      ({ db with
          stages := db.stages.map (fun r => if r.stage_id = sid
            then { r with status := "ANNULE", updated_at := now } else r),
          history := db.history ++
            [⟨hid, sid, "UPDATE", some "status", some row.status, some "ANNULE",
              (msg.requester_id).getD "", now⟩] },
       ⟨true, "Stage mis à jour avec succès"⟩) := by
    unfold handle_delete_stage update_stage log_history
    simp only [hsid, Option.getD_some]
    rw [hfind]
    rfl
  rw [hdel]
  refine ⟨rfl, rfl, rfl, rfl, rfl, rfl, ?_⟩
  unfold get_stage
  rw [find?_map_of_pred db.stages (fun r => r.stage_id = sid)
    (fun r => if r.stage_id = sid then { r with status := "ANNULE", updated_at := now } else r)
    (fun a => by by_cases h : a.stage_id = sid <;> simp [h]), hfind]
  simp [hrowid]

/-- Witness for C9 on a one-stage database. -/
theorem c9_witness :
    (handle_delete_stage
      ⟨[⟨"sid1", "s", "sn", "se", "sp", "u", "un", "dep", "lvl", "c", "cn", "ca", "cc",
         "cr", "titre", "desc", "ty", 0, 100, "EN_COURS", none, none, 0, 0, 0⟩], [], [], [], []⟩
      "h1" { Message.ofType "delete_stage" with stage_id := some "sid1" } 7).2
      = ⟨true, "Stage mis à jour avec succès"⟩ ∧
    (get_stage (handle_delete_stage
      ⟨[⟨"sid1", "s", "sn", "se", "sp", "u", "un", "dep", "lvl", "c", "cn", "ca", "cc",
         "cr", "titre", "desc", "ty", 0, 100, "EN_COURS", none, none, 0, 0, 0⟩], [], [], [], []⟩
      "h1" { Message.ofType "delete_stage" with stage_id := some "sid1" } 7).1 "sid1").isSome
      = true := by
  obtain ⟨hresp, _, _, _, _, _, hget⟩ :=
    c9_soft_delete
      ⟨[⟨"sid1", "s", "sn", "se", "sp", "u", "un", "dep", "lvl", "c", "cn", "ca", "cc",
         "cr", "titre", "desc", "ty", 0, 100, "EN_COURS", none, none, 0, 0, 0⟩], [], [], [], []⟩
      "h1" { Message.ofType "delete_stage" with stage_id := some "sid1" } 7 "sid1"
      ⟨"sid1", "s", "sn", "se", "sp", "u", "un", "dep", "lvl", "c", "cn", "ca", "cc",
       "cr", "titre", "desc", "ty", 0, 100, "EN_COURS", none, none, 0, 0, 0⟩
      rfl (by simp [List.find?_cons])
  exact ⟨hresp, by rw [hget]; rfl⟩

/-- C3 counterexample: a FINAL report for an in-progress stage whose
computed progress is 10 percent (well below 80) is accepted by
submit_report — the response is success and the report is stored — even
though validate_report_submission says not ok, because no caller of the
submission path ever invokes the validation protocol. -/
theorem c3_counterexample :
    (validate_report_submission StageStatus.inProgress 0 100 10 ReportType.final).1 = false ∧
    progress_percentage StageStatus.inProgress 0 100 10 < 80 ∧
    (submit_report
      ⟨[⟨"sid1", "s", "sn", "se", "sp", "u", "un", "dep", "lvl", "c", "cn", "ca", "cc",
         "cr", "titre", "desc", "ty", 0, 100, "EN_COURS", none, none, 0, 0, 0⟩], [], [], [], []⟩
      "r1" ⟨"sid1", "FINAL", "rapport final", "contenu", "etu1", 0, false⟩ 10 10).2.success
      = true ∧
    (submit_report
      ⟨[⟨"sid1", "s", "sn", "se", "sp", "u", "un", "dep", "lvl", "c", "cn", "ca", "cc",
         "cr", "titre", "desc", "ty", 0, 100, "EN_COURS", none, none, 0, 0, 0⟩], [], [], [], []⟩
      "r1" ⟨"sid1", "FINAL", "rapport final", "contenu", "etu1", 0, false⟩ 10 10).1.reports.length
      = 1 := by
  have hp : progress_percentage StageStatus.inProgress 0 100 10 = 10 := by
    unfold progress_percentage
    norm_num [min_def]
    decide
  refine ⟨?_, ?_, by decide, by decide⟩
  · unfold validate_report_submission
    rw [hp]
    norm_num
  · rw [hp]
    norm_num

/-- C3 (amended): validate_report_submission returns ok = false exactly
when the stage status is outside IN_PROGRESS and APPROVED, or the
report type is FINAL and the stage's derived progress is below 80;
however neither StageManager.submit_report nor the server's submit
handler invokes it, so a submission of any type — FINAL included — is
stored and succeeds regardless of status or progress. -/
theorem c3_final_report_validation (status : StageStatus) (sd ed today : Int)
    (rt : ReportType) (db : DB) (rid : String) (d : ReportData) (now tdy : Int)
    (hfresh : ∀ r ∈ db.reports, r.report_id ≠ rid) :
    ((validate_report_submission status sd ed today rt).1 = false ↔
      ((status ≠ StageStatus.inProgress ∧ status ≠ StageStatus.approved) ∨
        (rt = ReportType.final ∧ progress_percentage status sd ed today < 80))) ∧
    (submit_report db rid d now tdy).2 = ⟨true, some rid, "Rapport soumis avec succès"⟩ ∧
    ∃ fp, (submit_report db rid d now tdy).1.reports = db.reports ++
      [⟨rid, d.stage_id, d.report_type, d.title, d.content, fp, d.submitted_by, now,
        d.week_number, "SOUMIS", none, none, none, none⟩] := by
  have hany : db.reports.any (fun r => r.report_id = rid) = false := by
    rw [List.any_eq_false]
    intro r hr
    simpa using hfresh r hr
  refine ⟨?_, ?_, ⟨if d.has_file then some (rid ++ "_file") else none, ?_⟩⟩
  · unfold validate_report_submission
    by_cases h1 : status ≠ StageStatus.inProgress ∧ status ≠ StageStatus.approved <;>
      by_cases h2 : rt = ReportType.final ∧ progress_percentage status sd ed today < 80 <;>
        simp [h1, h2]
  · unfold submit_report
    simp only [hany, Bool.false_eq_true, if_false]
  · unfold submit_report
    simp only [hany, Bool.false_eq_true, if_false]

/-- Witness for C3 (amended): a FINAL report on an empty database is
stored and succeeds, and the validator rejects a pending stage. -/
theorem c3_witness :
    ((validate_report_submission StageStatus.pending 0 100 50 ReportType.final).1 = false ↔
      ((StageStatus.pending ≠ StageStatus.inProgress ∧
        StageStatus.pending ≠ StageStatus.approved) ∨
        (ReportType.final = ReportType.final ∧
          progress_percentage StageStatus.pending 0 100 50 < 80))) ∧
    (submit_report DB.empty "r9" ⟨"sid9", "FINAL", "t", "c", "e", 0, false⟩ 3 3).2
      = ⟨true, some "r9", "Rapport soumis avec succès"⟩ ∧
    ∃ fp, (submit_report DB.empty "r9" ⟨"sid9", "FINAL", "t", "c", "e", 0, false⟩ 3 3).1.reports
      = DB.empty.reports ++
        [⟨"r9", "sid9", "FINAL", "t", "c", fp, "e", 3, 0, "SOUMIS", none, none, none, none⟩] :=
  c3_final_report_validation StageStatus.pending 0 100 50 ReportType.final DB.empty "r9"
    ⟨"sid9", "FINAL", "t", "c", "e", 0, false⟩ 3 3 (by simp [DB.empty])

/-- C1 counterexample: submitting a report for a stage whose status is
EN_ATTENTE (PENDING) with start day 0, end day 10, on day 20, stores
progress 50 — the recomputation ignores the status entirely (time
progress 100 × 0.4 plus one report worth 10) — whereas the claim
requires the stored progress of a PENDING stage to be 0. -/
theorem c1_counterexample :
    ((submit_report
      ⟨[⟨"sid1", "s", "sn", "se", "sp", "u", "un", "dep", "lvl", "c", "cn", "ca", "cc",
         "cr", "titre", "desc", "ty", 0, 10, "EN_ATTENTE", none, none, 0, 0, 0⟩], [], [], [], []⟩
      "r1" ⟨"sid1", "HEBDOMADAIRE", "t", "c", "e", 1, false⟩ 20 20).1.stages.map
        (fun r => (r.status, r.progress_percentage))) = [("EN_ATTENTE", (50 : ℚ))] ∧
    (50 : ℚ) ≠ 0 := by
  have hup : update_stage_progress 0 10 20 1 0 = 50 := by
    unfold update_stage_progress
    norm_num [min_def]
  constructor
  · simp only [submit_report, List.any_nil, Bool.false_eq_true, if_false,
      List.find?_cons, List.nil_append, List.countP_cons, List.countP_nil]
    simp [hup]
  · norm_num

/-- Progress formula of the specification for the SubmitReport side
effect, written from the spec sentence: elapsed-time progress (clamped
by the before-start and after-end guards) times 0.4, plus
min(reportCount×10, 30), plus min(evalCount×15, 30), capped at 100.
Used to compare the stored value against the spec wording. -/
def spec_submit_progress (start_date end_date today : Int)
    (reportCount evalCount : Nat) : ℚ :=
  min 100
    ((if today < start_date then 0
      else if today > end_date then (100 : ℚ)
      else ((today - start_date : Int) : ℚ) / ((end_date - start_date : Int) : ℚ) * 100)
        * (4/10)
    + ((min (reportCount * 10) 30 : Nat) : ℚ)
    + ((min (evalCount * 15) 30 : Nat) : ℚ))

/-- C1 (amended): the progress stored by submit_report equals the
spec formula computed from the stage dates, the report count including
the report just inserted and the evaluation count — for every stage
status alike, with no COMPLETED or PENDING/CANCELLED override; the
Stage entity's own progress_percentage, by contrast, is 100 when
COMPLETED, 0 when PENDING or CANCELLED, and otherwise the pure
elapsed-time percentage clamped to [0, 100], with no report or
evaluation terms. -/
theorem c1_progress_derivations (db : DB) (rid : String) (d : ReportData)
    (now today : Int) (row : StageRow)
    (hfresh : ∀ r ∈ db.reports, r.report_id ≠ rid)
    (hfind : db.stages.find? (fun r => r.stage_id = d.stage_id) = some row)
    (sd ed t : Int) :
    ((submit_report db rid d now today).1.stages = db.stages.map (fun r =>
      if r.stage_id = d.stage_id then
        { r with progress_percentage := (spec_submit_progress row.start_date row.end_date
            today (db.reports.countP (fun r => r.stage_id = d.stage_id) + 1)
            (db.evaluations.countP (fun e => e.stage_id = d.stage_id))) }
      else r)) ∧
    progress_percentage StageStatus.completed sd ed t = 100 ∧
    progress_percentage StageStatus.pending sd ed t = 0 ∧
    progress_percentage StageStatus.cancelled sd ed t = 0 ∧
    (∀ s : StageStatus,
      s = StageStatus.approved ∨ s = StageStatus.inProgress ∨ s = StageStatus.suspended →
      (t < sd → progress_percentage s sd ed t = 0) ∧
      (sd ≤ t → ed < t → progress_percentage s sd ed t = 100) ∧
      (sd ≤ t → t ≤ ed → progress_percentage s sd ed t
        = min 100 (((t - sd : Int) : ℚ) / ((ed - sd : Int) : ℚ) * 100))) := by
  have hany : db.reports.any (fun r => r.report_id = rid) = false := by
    rw [List.any_eq_false]
    intro r hr
    simpa using hfresh r hr
  refine ⟨?_, ?_, ?_, ?_, ?_⟩
  · unfold submit_report
    simp only [hany, Bool.false_eq_true, if_false, hfind]
    have hcnt : ∀ fp sub,
        (db.reports ++ [(⟨rid, d.stage_id, d.report_type, d.title, d.content, fp,
          sub, now, d.week_number, "SOUMIS", none, none, none, none⟩ : ReportRow)]).countP
          (fun r => r.stage_id = d.stage_id)
        = db.reports.countP (fun r => r.stage_id = d.stage_id) + 1 := by
      intro fp sub
      rw [List.countP_append]
      simp
    simp only [hcnt]
    rfl
  · unfold progress_percentage
    rw [if_pos rfl]
  · rfl
  · rfl
  · intro s hs
    have h1 : ¬ s = StageStatus.completed := by
      rcases hs with h | h | h <;> subst h <;> simp
    have h2 : ¬ (s = StageStatus.pending ∨ s = StageStatus.cancelled) := by
      rcases hs with h | h | h <;> subst h <;> simp
    refine ⟨?_, ?_, ?_⟩
    · intro ht
      unfold progress_percentage
      rw [if_neg h1, if_neg h2, if_pos ht]
    · intro hts ht
      unfold progress_percentage
      rw [if_neg h1, if_neg h2, if_neg (by omega), if_pos (by omega)]
    · intro ht1 ht2
      unfold progress_percentage
      rw [if_neg h1, if_neg h2, if_neg (by omega), if_neg (by omega)]

/-- Witness for C1 on a one-stage database: a pending stage from day 0
to day 10, report submitted on day 20; plus the entity-level progress
read on stages at day 5 of a 0..10 window. -/
theorem c1_witness :
    ((submit_report
      ⟨[⟨"sid1", "s", "sn", "se", "sp", "u", "un", "dep", "lvl", "c", "cn", "ca", "cc",
         "cr", "titre", "desc", "ty", 0, 10, "EN_ATTENTE", none, none, 0, 0, 0⟩], [], [], [], []⟩
      "r1" ⟨"sid1", "HEBDOMADAIRE", "t", "c", "e", 1, false⟩ 20 20).1.stages =
      [⟨"sid1", "s", "sn", "se", "sp", "u", "un", "dep", "lvl", "c", "cn", "ca", "cc",
        "cr", "titre", "desc", "ty", 0, 10, "EN_ATTENTE", none, none, 0, 0, 0⟩].map (fun r =>
        if r.stage_id = "sid1" then
          { r with progress_percentage := spec_submit_progress 0 10 20 1 0 }
        else r)) ∧
    progress_percentage StageStatus.completed 0 10 5 = 100 ∧
    progress_percentage StageStatus.pending 0 10 5 = 0 ∧
    progress_percentage StageStatus.inProgress 0 10 5
      = min 100 ((((5 : Int) - 0 : Int) : ℚ) / (((10 : Int) - 0 : Int) : ℚ) * 100) := by
  obtain ⟨hstore, hcomp, hpend, _, hband⟩ :=
    c1_progress_derivations
      ⟨[⟨"sid1", "s", "sn", "se", "sp", "u", "un", "dep", "lvl", "c", "cn", "ca", "cc",
         "cr", "titre", "desc", "ty", 0, 10, "EN_ATTENTE", none, none, 0, 0, 0⟩], [], [], [], []⟩
      "r1" ⟨"sid1", "HEBDOMADAIRE", "t", "c", "e", 1, false⟩ 20 20
      ⟨"sid1", "s", "sn", "se", "sp", "u", "un", "dep", "lvl", "c", "cn", "ca", "cc",
       "cr", "titre", "desc", "ty", 0, 10, "EN_ATTENTE", none, none, 0, 0, 0⟩
      (by simp) (by simp [List.find?_cons]) 0 10 5
  exact ⟨hstore, hcomp, hpend,
    (hband StageStatus.inProgress (Or.inr (Or.inl rfl))).2.2 (by omega) (by omega)⟩

/-- C7 counterexample: the router is not exception-free.  A
register_institution message whose institution_type is not an enum
value makes the InstitutionType coercion raise ValueError inside
_process_message; the exception escapes to the connection loop (whose
except clause breaks the loop and tears the connection down), so the
router does not return a structured response for every payload. -/
theorem c7_counterexample :
    process_message ServerState.init DB.empty
      { Message.ofType "register_institution" with institution_type := some "INVALIDE" }
      0 ⟨"a", "b", "c", "d", "e"⟩ 0 0
    = Except.error (PyExn.valueError "is not a valid InstitutionType") := by
  rfl

/-- C7 (amended): a message whose type is outside the router's catalog
always yields the structured unknown-type error response naming the
type, with server state and store unchanged; for known types the
router returns a structured response except where a handler itself
raises (register_institution with an invalid institution_type value,
list_supervisors always, review_report without a report id,
list_stages with page_size 0), in which case the exception reaches the
connection loop. -/
theorem c7_unknown_type_response (st : ServerState) (db : DB) (msg : Message)
    (sock : Nat) (fresh : FreshIds) (now today : Int)
    (h : msg.type ∉ messageCatalog) :
    process_message st db msg sock fresh now today
      = Except.ok (Response.errorR ("Type de message inconnu: " ++ msg.type), st, db) := by
  simp only [messageCatalog, List.mem_cons, List.not_mem_nil, or_false, not_or] at h
  obtain ⟨h1, h2, h3, h4, h5, h6, h7, h8, h9, h10, h11, h12, h13, h14, h15, h16, h17⟩ := h
  unfold process_message
  rw [if_neg h1, if_neg h2, if_neg h3, if_neg h4, if_neg h5, if_neg h6, if_neg h7,
    if_neg h8, if_neg h9, if_neg h10, if_neg h11, if_neg h12, if_neg h13, if_neg h14,
    if_neg h15, if_neg h16, if_neg h17]

/-- Witness for C7 at a concrete unknown type on the initial state. -/
theorem c7_witness :
    process_message ServerState.init DB.empty (Message.ofType "foo_bar")
      0 ⟨"a", "b", "c", "d", "e"⟩ 0 0
    = Except.ok (Response.errorR ("Type de message inconnu: " ++ "foo_bar"),
        ServerState.init, DB.empty) :=
  c7_unknown_type_response ServerState.init DB.empty (Message.ofType "foo_bar")
    0 ⟨"a", "b", "c", "d", "e"⟩ 0 0 (by decide)

end StageMgmt
